import Mathlib

/-!
Formal model of the Beads autonomous-coding-harness director modules.

Each Python function under `src/src/director/` that the development reasons
about is shallowly embedded as a total Lean function.  External effects
(subprocess execution, awaiting an asyncio task, the metrics file) are made
explicit as parameters describing the outcome of the effect, so that every
code path of the Python function corresponds to a case of the Lean function.
Python strings manipulated character-wise are modelled as `List Char`
(named `PyStr`); strings that are only stored or compared are `String`.
Python `float` and fractional arithmetic are modelled by `ℚ`; Python `int`
by `ℤ` (or `ℕ` where the source value is a count).
-/

/-! ## Python string primitives (used by conflict_handler.py) -/

/-- Model of a Python `str` as a list of characters. -/
abbrev PyStr := List Char

/-- Whitespace set of Python `str.strip()`: space, tab, newline, carriage
return, vertical tab, form feed. -/
def pyIsSpace (c : Char) : Bool :=
  c = ' ' || c = '\t' || c = '\n' || c = '\r' || c = '\x0b' || c = '\x0c'

/-- Python `s.strip()`: remove leading and trailing whitespace. -/
def pyStrip (s : PyStr) : PyStr :=
  ((s.dropWhile pyIsSpace).reverse.dropWhile pyIsSpace).reverse

/-- Python `s.lower()` (the source only lowercases ASCII git output). -/
def pyToLower (s : PyStr) : PyStr := s.map Char.toLower

/-- Python `s.split("\n")`. -/
def pySplitNl : PyStr → List PyStr
  | [] => [[]]
  | c :: rest =>
    match pySplitNl rest with
    | [] => [[]]
    | h :: t => if c = '\n' then [] :: h :: t else (c :: h) :: t

/-- Python `needle in haystack` for strings. -/
def pyContains (needle : PyStr) : PyStr → Bool
  | [] => needle.isEmpty
  | c :: rest => needle.isPrefixOf (c :: rest) || pyContains needle rest

/-- Python `a or b` for strings: `a` if non-empty, else `b`. -/
def pyOr (a b : PyStr) : PyStr := if a.isEmpty then b else a

/-! ## conflict_handler.py -/

/-- Status of a merge operation attempt (`MergeStatus` enum). -/
inductive MergeStatus where
  | merged
  | conflict
  | error
deriving DecidableEq

/-- Result of a merge operation attempt (`MergeResult` dataclass). -/
structure MergeResult where
  status : MergeStatus
  error_message : Option PyStr := none
  conflicted_files : Option (List PyStr) := none
deriving DecidableEq

/-- Outcome of a completed `subprocess.run` call. -/
structure CompletedProcess where
  returncode : ℤ
  stdout : PyStr
  stderr : PyStr
deriving DecidableEq

/-- Outcome of invoking `subprocess.run`: the process completed (with any
exit code); or the call raised a `subprocess.SubprocessError`, the failure
mode the module's `except` clauses handle (and the one the repository's
tests use for crash scenarios); or the call raised an `OSError` — in
particular the `FileNotFoundError` CPython raises when the executable is
missing — which is not a `subprocess.SubprocessError` and is therefore not
caught by `except subprocess.SubprocessError`, so it propagates out of the
conflict-handler functions uncaught. -/
inductive SubprocOutcome where
  | ok (r : CompletedProcess)
  | subprocessError (msg : PyStr)
  | osError (msg : PyStr)
deriving DecidableEq

/-- Embedding of `detect_merge_conflicts(project_dir)`.  `diffRun` is the
outcome of the `git diff --name-only --diff-filter=U` subprocess call.
`Except.error` models an exception escaping the function: its
`except subprocess.SubprocessError` clause returns `[]`, but an `OSError`
(missing git executable) propagates uncaught. -/
def detect_merge_conflicts (diffRun : SubprocOutcome) : Except PyStr (List PyStr) :=
  match diffRun with
  | .osError e => .error e
  | .subprocessError _ => .ok []
  | .ok r =>
    if r.returncode ≠ 0 then .ok []
    else
      let stdout := pyStrip r.stdout
      if stdout.isEmpty then .ok []
      else .ok (((pySplitNl stdout).map pyStrip).filter (fun line => !line.isEmpty))

/-- Embedding of `attempt_automatic_merge(branch_name, project_dir)`.
`mergeRun` is the outcome of the `git merge` subprocess call and `diffRun`
the outcome of the subsequent conflict-detection call (used only on the
conflict path).  `branch_name` only feeds the command line and log text in
the source, so it does not influence the result.  `Except.error` models an
exception escaping the function: its `except subprocess.SubprocessError`
clause returns an Error result, but an `OSError` (missing git executable)
from either subprocess call propagates uncaught — the conflict-detection
call runs inside the same `try`, whose `except` also does not catch
`OSError`. -/
def attempt_automatic_merge (branch_name : PyStr) (mergeRun diffRun : SubprocOutcome) :
    Except PyStr MergeResult :=
  match mergeRun with
  | .osError e => .error e
  | .subprocessError e => .ok ⟨.error, some e, none⟩
  | .ok result =>
    if result.returncode = 0 then .ok ⟨.merged, none, none⟩
    else
      let combined := pyToLower (result.stdout ++ '\n' :: result.stderr)
      if pyContains "conflict".toList combined then
        match detect_merge_conflicts diffRun with
        | .error e => .error e
        | .ok conflict_files =>
          let error_msg := pyOr (pyStrip result.stderr) (pyStrip result.stdout)
          .ok ⟨.conflict, some error_msg, some conflict_files⟩
      else
        let error_msg := pyOr (pyStrip result.stderr) (pyStrip result.stdout)
        .ok ⟨.error, some error_msg, none⟩

/-! ## timeout_organisms.py

The two async organisms are embedded as pure functions over a description of
what happened at their await points.  `AwaitOutcome` describes awaiting the
wrapped work inside `asyncio.timeout(timeout_seconds)`: it completed, this
call's own deadline expired (`asyncio.TimeoutError`), the enclosing context
was cancelled externally (`asyncio.CancelledError`, which since Python 3.8
is not an `Exception` and so is never caught by the generic handler), or the
work raised some other exception (modelled by the type parameter `ε`). -/

/-- Outcome of awaiting the wrapped work under `asyncio.timeout`. -/
inductive AwaitOutcome (α ε : Type) where
  | completed (v : α)
  | deadlineExpired
  | cancelled
  | raised (e : ε)

/-- Outcome of awaiting the cleanup callback under its grace period. -/
inductive CleanupOutcome (ε : Type) where
  | finished
  | gracePeriodExpired
  | raised (e : ε)

/-- Errors stored in a `TimeoutResult.error` field or raised by
`run_with_timeout`: the module's own `TimeoutError` class (with its
`operation_name` and `timeout_seconds` context), an
`asyncio.CancelledError`, or an ordinary exception of the work. -/
inductive KernelError (ε : Type) where
  | timeoutError (operation_name : String) (timeout_seconds : ℚ)
  | cancelledError
  | exc (e : ε)

/-- Result container of timeout-wrapped operations (`TimeoutResult`). -/
structure TimeoutResult (α ε : Type) where
  success : Bool
  result : Option α
  timed_out : Bool
  error : Option (KernelError ε)
  elapsed_seconds : ℚ

/-- Observable events of one `run_with_timeout` call, in order: the cleanup
callback being awaited (start and how it resolved) and the final outcome
(return or raise) being produced. -/
inductive RwtEvent where
  | cleanupStarted
  | cleanupFinished
  | cleanupGracePeriodExpired
  | cleanupFailed
  | finalOutcomeProduced
deriving DecidableEq

/-- Trace event recording how the cleanup callback resolved. -/
def cleanupEvent : CleanupOutcome ε → RwtEvent
  | .finished => .cleanupFinished
  | .gracePeriodExpired => .cleanupGracePeriodExpired
  | .raised _ => .cleanupFailed

/-- Return value of `run_with_timeout`: the raw result `T` (when
`raise_on_timeout` is true and the work completed) or a `TimeoutResult`. -/
def RwtReturn (α ε : Type) := α ⊕ TimeoutResult α ε

/-- Embedding of `run_with_timeout(coro, timeout_seconds, operation_name,
cleanup_callback, raise_on_timeout)`.  Returns the ordered event trace of
the call together with its outcome (`Except.error` models a raised
exception propagating to the caller).  `work` is what awaiting the wrapped
coroutine did; `cleanup_callback` is `none` when no callback was supplied,
otherwise how the callback resolved within its grace period.  `elapsed` is
the monotonic-clock elapsed time recorded in returned results. -/
def run_with_timeout (work : AwaitOutcome α ε) (timeout_seconds : ℚ)
    (operation_name : String) (cleanup_callback : Option (CleanupOutcome ε))
    (raise_on_timeout : Bool) (elapsed : ℚ) :
    List RwtEvent × Except (KernelError ε) (RwtReturn α ε) :=
  match work with
  | .completed v =>
    if raise_on_timeout then ([.finalOutcomeProduced], .ok (.inl v))
    else ([.finalOutcomeProduced], .ok (.inr ⟨true, some v, false, none, elapsed⟩))
  | .deadlineExpired =>
    let cleanupTrace : List RwtEvent :=
      match cleanup_callback with
      | none => []
      | some c => [.cleanupStarted, cleanupEvent c]
    if raise_on_timeout then
      (cleanupTrace ++ [.finalOutcomeProduced],
       .error (.timeoutError operation_name timeout_seconds))
    else
      (cleanupTrace ++ [.finalOutcomeProduced],
       .ok (.inr ⟨false, none, true,
                  some (.timeoutError operation_name timeout_seconds), elapsed⟩))
  | .cancelled => ([.finalOutcomeProduced], .error .cancelledError)
  | .raised e =>
    if raise_on_timeout then ([.finalOutcomeProduced], .error (.exc e))
    else ([.finalOutcomeProduced], .ok (.inr ⟨false, none, false, some (.exc e), elapsed⟩))

/-- Outcome of awaiting the cancelled task during the grace period inside
`run_with_timeout_and_cancel` (the source only logs this, every branch of
that inner `try` falls through to the same return). -/
inductive CancelWaitOutcome (ε : Type) where
  | acknowledged
  | gracePeriodExpired
  | raisedDuringCancel (e : ε)

/-- Embedding of `run_with_timeout_and_cancel(task, timeout_seconds,
operation_name)`.  `task` is what awaiting the task did, `cancel_wait` what
awaiting it again after `task.cancel()` did (reached only on the timeout
path and never influencing the result).  Total: every path of the source
returns a `TimeoutResult`; no exception escapes. -/
def run_with_timeout_and_cancel (task : AwaitOutcome α ε)
    (cancel_wait : CancelWaitOutcome ε) (timeout_seconds : ℚ)
    (operation_name : String) (elapsed : ℚ) : TimeoutResult α ε :=
  match task with
  | .completed v => ⟨true, some v, false, none, elapsed⟩
  | .deadlineExpired =>
    ⟨false, none, true, some (.timeoutError operation_name timeout_seconds), elapsed⟩
  | .cancelled => ⟨false, none, false, some .cancelledError, elapsed⟩
  | .raised e => ⟨false, none, false, some (.exc e), elapsed⟩

/-! ## parallel_atoms.py -/

/-- An issue dict as consumed by `sort_by_priority`: its optional
`priority` value and an opaque payload standing for the remaining keys
(used to tell entries apart when reasoning about stability). -/
structure Issue where
  priority : Option ℤ
  payload : ℕ
deriving DecidableEq

/-- Python `issue.get("priority", 5)`: the sort key. -/
def priorityKey (issue : Issue) : ℤ := issue.priority.getD 5

/-- Embedding of `sort_by_priority(issues)`.  Python's `sorted` is a stable
ascending sort by the key; it is embedded as Mathlib's insertion sort with
the non-strict key order, which is stable, sorted and a permutation — the
three properties that determine a stable sort's output uniquely. -/
def sort_by_priority (issues : List Issue) : List Issue :=
  issues.insertionSort (fun a b => priorityKey a ≤ priorityKey b)

instance : IsTotal Issue (fun a b => priorityKey a ≤ priorityKey b) :=
  ⟨fun a b => le_total (priorityKey a) (priorityKey b)⟩

instance : IsTrans Issue (fun a b => priorityKey a ≤ priorityKey b) :=
  ⟨fun _ _ _ h1 h2 => le_trans h1 h2⟩

/-- An execution record as consumed by `calculate_success_rate`: modelled by
its optional `success` value (`e.get("success", False)` is all the source
reads). -/
def successCount (recent : List (Option Bool)) : ℕ :=
  recent.countP (fun e => e.getD false)

/-- Embedding of `calculate_success_rate(executions, window)`.  The slice
`executions[-window:]` is the whole list when `window = 0` (Python's `-0`
is `0`) and otherwise the last `window` entries. -/
def calculate_success_rate (executions : List (Option Bool)) (window : ℕ) : ℚ :=
  if executions = [] then 0
  else
    let recent :=
      if window = 0 then executions
      else executions.drop (executions.length - window)
    if recent = [] then 0
    else (successCount recent : ℚ) / (recent.length : ℚ)

/-- The last `window` records of the list. -/
def lastWindow (executions : List (Option Bool)) (window : ℕ) : List (Option Bool) :=
  executions.drop (executions.length - window)

/-- Modelled from the spec's words, for comparison with the code: the
fraction of records with success flag true among the last `window` records,
0 for empty input (an empty selection also yields 0, as `ℚ` division by
zero is 0). -/
def success_rate_spec (executions : List (Option Bool)) (window : ℕ) : ℚ :=
  if executions = [] then 0
  else (successCount (lastWindow executions window) : ℚ) /
       ((lastWindow executions window).length : ℚ)

/-! ## improvement_tracker.py -/

/-- Embedding of the higher-level tracker's
`recommend_parallelism(current_load, success_rate)`. -/
def recommend_parallelism (current_load : ℤ) (success_rate : ℚ) : ℤ :=
  let sr := max 0 (min 1 success_rate)
  let recommended :=
    if 8/10 < sr ∧ current_load < 3 then current_load + 1
    else if sr < 1/2 then max 1 (current_load - 1)
    else current_load
  max 1 (min 5 recommended)

/-! ## metrics_molecules.py -/

/-- Sub-agent execution metrics entry (`MetricsData` dataclass, with its
declared field types: five strings and a float duration). -/
structure MetricsData where
  start_time : String
  end_time : String
  duration : ℚ
  status : String
  agent_type : String
  issue_id : String
deriving DecidableEq

/-- A scalar JSON field value as persisted by the metrics file. -/
inductive JField where
  | str (s : String)
  | num (q : ℚ)
deriving DecidableEq

/-- One element of the persisted JSON list: a JSON object (an association
list, as produced by `json.load`) or some non-dict value (skipped by the
loader). -/
inductive JEntry where
  | dict (fields : List (String × JField))
  | nonDict
deriving DecidableEq

/-- The persisted JSON document: a list, or some non-list value (rejected
by the loader). -/
inductive JDoc where
  | jlist (entries : List JEntry)
  | nonList
deriving DecidableEq

/-- Python `dataclasses.asdict` applied to a `MetricsData`. -/
def asdictMetrics (m : MetricsData) : List (String × JField) :=
  [("start_time", .str m.start_time),
   ("end_time", .str m.end_time),
   ("duration", .num m.duration),
   ("status", .str m.status),
   ("agent_type", .str m.agent_type),
   ("issue_id", .str m.issue_id)]

/-- Embedding of the successful path of `save_metrics(metrics_list,
file_path)`: the JSON document written to the file (the source returns
`False` and writes nothing only when the OS or serialization fails). -/
def save_metrics (metrics_list : List MetricsData) : JDoc :=
  .jlist (metrics_list.map (fun m => .dict (asdictMetrics m)))

/-- Reconstruction of one `MetricsData` from one JSON entry inside
`load_metrics`: non-dict entries and entries missing a field are skipped
(`none`); the source performs no type validation beyond key presence, so
the constructor-shape requirements here are vacuous on documents produced
by `save_metrics`. -/
def decodeMetricsEntry (entry : JEntry) : Option MetricsData :=
  match entry with
  | .nonDict => none
  | .dict fields =>
    match fields.lookup "start_time", fields.lookup "end_time",
          fields.lookup "duration", fields.lookup "status",
          fields.lookup "agent_type", fields.lookup "issue_id" with
    | some (.str st), some (.str et), some (.num dur), some (.str s),
      some (.str ag), some (.str iid) => some ⟨st, et, dur, s, ag, iid⟩
    | _, _, _, _, _, _ => none

/-- Embedding of `load_metrics(file_path)`: `file` is `none` when the file
does not exist (or its text is not valid JSON), otherwise the parsed JSON
document.  Returns `none` for a missing file or a non-list document,
otherwise the decoded entries with invalid ones skipped. -/
def load_metrics (file : Option JDoc) : Option (List MetricsData) :=
  match file with
  | none => none
  | some .nonList => none
  | some (.jlist entries) => some (entries.filterMap decodeMetricsEntry)

/-! ## client_factory.py -/

/-- File-scoped tools restricted to the project directory
(`FILE_SCOPED_TOOLS`). -/
def FILE_SCOPED_TOOLS : List String := ["Read", "Write", "Edit", "Glob", "Grep"]

/-- Puppeteer MCP tools for browser automation (`PUPPETEER_TOOLS`). -/
def PUPPETEER_TOOLS : List String :=
  ["mcp__puppeteer__puppeteer_navigate",
   "mcp__puppeteer__puppeteer_screenshot",
   "mcp__puppeteer__puppeteer_click",
   "mcp__puppeteer__puppeteer_fill",
   "mcp__puppeteer__puppeteer_select",
   "mcp__puppeteer__puppeteer_hover",
   "mcp__puppeteer__puppeteer_evaluate"]

/-- Security settings dict built by `build_security_settings`: the
`sandbox` block and the `permissions` block. -/
structure SecuritySettings where
  sandbox_enabled : Bool
  auto_allow_bash_if_sandboxed : Bool
  default_mode : String
  allow : List String
deriving DecidableEq

/-- Permission grant for one tool name: the loop body of
`build_security_settings`. -/
def grant_for_tool (tool : String) : String :=
  if tool ∈ FILE_SCOPED_TOOLS then tool ++ "(./**)"
  else if tool = "Bash" then "Bash(*)"
  else tool

/-- Embedding of `build_security_settings(allowed_tools, project_dir,
enable_mcp)`.  The `project_dir` parameter is kept to mirror the source
signature; the source never reads it when building the settings. -/
def build_security_settings (allowed_tools : List String) (project_dir : String)
    (enable_mcp : Bool) : SecuritySettings :=
  let allow_list := allowed_tools.map grant_for_tool
  let allow_list := allow_list ++ (if enable_mcp then PUPPETEER_TOOLS else [])
  ⟨true, true, "acceptEdits", allow_list⟩

/-! ## Theorems -/

/-- Claim C1 is right about the intent and the code falls short of it: the
claim (with the source's docstring and tests) says tool-unavailable is
reported as an Error result and the function never raises, but
`except subprocess.SubprocessError` does not catch the `OSError`
(`FileNotFoundError`) that `subprocess.run` raises when the git executable
is missing, so on exactly that input the exception propagates out of
`attempt_automatic_merge`.  This theorem evaluates the code at the failing
input: an `OSError` from the merge call escapes (`Except.error`), while the
`SubprocessError` the handler does catch is reported as an Error result as
the claim describes. -/
theorem attempt_automatic_merge_tool_missing_raises :
    ∀ (branch_name msg : PyStr) (diffRun : SubprocOutcome),
      attempt_automatic_merge branch_name (SubprocOutcome.osError msg) diffRun
        = Except.error msg
      ∧ attempt_automatic_merge branch_name (SubprocOutcome.subprocessError msg) diffRun
        = Except.ok ⟨MergeStatus.error, some msg, none⟩ := by
  intro branch_name msg diffRun
  exact ⟨rfl, rfl⟩

/-- Claim C5: every `MergeResult` produced by `attempt_automatic_merge`
(i.e. every result the function returns rather than raising) satisfies the
invariant that `conflicted_files` is populated (not `none`) only when the
status is Conflict, and `error_message` is populated whenever the status is
not Merged. -/
theorem merge_result_population_invariant :
    ∀ (branch_name : PyStr) (mergeRun diffRun : SubprocOutcome) (r : MergeResult),
      attempt_automatic_merge branch_name mergeRun diffRun = Except.ok r →
      ((r.conflicted_files ≠ none → r.status = MergeStatus.conflict)
       ∧ (r.status ≠ MergeStatus.merged → r.error_message ≠ none)) := by
  intro branch_name mergeRun diffRun r h
  cases mergeRun with
  | osError e => simp [attempt_automatic_merge] at h
  | subprocessError e =>
    simp only [attempt_automatic_merge, Except.ok.injEq] at h
    subst h
    simp
  | ok res =>
    simp only [attempt_automatic_merge] at h
    by_cases h0 : res.returncode = 0
    · rw [if_pos h0] at h
      simp only [Except.ok.injEq] at h
      subst h
      simp
    · rw [if_neg h0] at h
      by_cases hc : pyContains "conflict".toList (pyToLower (res.stdout ++ '\n' :: res.stderr))
          = true
      · rw [if_pos hc] at h
        cases hd : detect_merge_conflicts diffRun with
        | error e =>
          rw [hd] at h
          simp at h
        | ok files =>
          rw [hd] at h
          simp only [Except.ok.injEq] at h
          subst h
          simp
      · rw [if_neg hc] at h
        simp only [Except.ok.injEq] at h
        subst h
        simp

/-- Witness for C5: on the spec's concrete conflicting merge scenario the
call returns a result, the invariant's hypotheses hold, and the theorem
yields a Conflict status with a populated message. -/
theorem merge_result_population_invariant_witness :
    (⟨MergeStatus.conflict,
        some "CONFLICT (content): Merge conflict in file.txt".toList,
        some ["src/main.py".toList, "config.json".toList]⟩ : MergeResult).status
      = MergeStatus.conflict
    ∧ (⟨MergeStatus.conflict,
        some "CONFLICT (content): Merge conflict in file.txt".toList,
        some ["src/main.py".toList, "config.json".toList]⟩ : MergeResult).error_message
      ≠ none :=
  ⟨(merge_result_population_invariant []
      (SubprocOutcome.ok ⟨1, [], "CONFLICT (content): Merge conflict in file.txt".toList⟩)
      (SubprocOutcome.ok ⟨0, "src/main.py\nconfig.json\n".toList, []⟩)
      ⟨MergeStatus.conflict,
        some "CONFLICT (content): Merge conflict in file.txt".toList,
        some ["src/main.py".toList, "config.json".toList]⟩ rfl).1 (by decide),
   (merge_result_population_invariant []
      (SubprocOutcome.ok ⟨1, [], "CONFLICT (content): Merge conflict in file.txt".toList⟩)
      (SubprocOutcome.ok ⟨0, "src/main.py\nconfig.json\n".toList, []⟩)
      ⟨MergeStatus.conflict,
        some "CONFLICT (content): Merge conflict in file.txt".toList,
        some ["src/main.py".toList, "config.json".toList]⟩ rfl).2 (by decide)⟩

/-- Claim C2: `run_with_timeout_and_cancel` is total (its embedding returns
a `TimeoutResult` on every await outcome, so no exception escapes), each of
the three failure modes — its own timeout, an exception raised by the task,
and external cancellation — is captured in the outcome's `error` field
whatever the cancellation-wait did, and the three are pairwise
distinguishable via the `timed_out` flag and the error's constructor. -/
theorem run_with_timeout_and_cancel_outcomes :
    ∀ (α ε : Type) (v : α) (e : ε) (cw cw₂ : CancelWaitOutcome ε)
      (secs elapsed : ℚ) (op : String),
      run_with_timeout_and_cancel (AwaitOutcome.completed v) cw secs op elapsed
        = ⟨true, some v, false, none, elapsed⟩
      ∧ run_with_timeout_and_cancel (AwaitOutcome.deadlineExpired : AwaitOutcome α ε)
          cw secs op elapsed
        = ⟨false, none, true, some (KernelError.timeoutError op secs), elapsed⟩
      ∧ run_with_timeout_and_cancel (AwaitOutcome.cancelled : AwaitOutcome α ε)
          cw secs op elapsed
        = ⟨false, none, false, some KernelError.cancelledError, elapsed⟩
      ∧ run_with_timeout_and_cancel (AwaitOutcome.raised e : AwaitOutcome α ε)
          cw secs op elapsed
        = ⟨false, none, false, some (KernelError.exc e), elapsed⟩
      ∧ (run_with_timeout_and_cancel (AwaitOutcome.deadlineExpired : AwaitOutcome α ε)
          cw secs op elapsed).timed_out
        ≠ (run_with_timeout_and_cancel (AwaitOutcome.cancelled : AwaitOutcome α ε)
          cw₂ secs op elapsed).timed_out
      ∧ (run_with_timeout_and_cancel (AwaitOutcome.deadlineExpired : AwaitOutcome α ε)
          cw secs op elapsed).timed_out
        ≠ (run_with_timeout_and_cancel (AwaitOutcome.raised e : AwaitOutcome α ε)
          cw₂ secs op elapsed).timed_out
      ∧ (run_with_timeout_and_cancel (AwaitOutcome.cancelled : AwaitOutcome α ε)
          cw secs op elapsed).error
        ≠ (run_with_timeout_and_cancel (AwaitOutcome.raised e : AwaitOutcome α ε)
          cw₂ secs op elapsed).error := by
  intro α ε v e cw cw₂ secs elapsed op
  refine ⟨rfl, rfl, rfl, rfl, by simp [run_with_timeout_and_cancel],
    by simp [run_with_timeout_and_cancel], by simp [run_with_timeout_and_cancel]⟩

/-- Claim C3: when the deadline of a `run_with_timeout` call is breached and
a cleanup callback was supplied, the callback is awaited and resolves
(completing, expiring its grace period, or failing) strictly before the
final timed-out outcome is produced, and the reported timed-out outcome —
raised `TimeoutError` or returned `TimeoutResult` with `timed_out = true`,
depending on `raise_on_timeout` — is the same whatever the cleanup did. -/
theorem run_with_timeout_cleanup_precedes_timeout_outcome :
    ∀ (α ε : Type) (c : CleanupOutcome ε) (secs elapsed : ℚ) (op : String)
      (raise_on_timeout : Bool),
      (run_with_timeout (AwaitOutcome.deadlineExpired : AwaitOutcome α ε) secs op (some c)
          raise_on_timeout elapsed).1
        = [RwtEvent.cleanupStarted, cleanupEvent c, RwtEvent.finalOutcomeProduced]
      ∧ (run_with_timeout (AwaitOutcome.deadlineExpired : AwaitOutcome α ε) secs op (some c)
          raise_on_timeout elapsed).2
        = (if raise_on_timeout then Except.error (KernelError.timeoutError op secs)
           else Except.ok (Sum.inr ⟨false, none, true,
                  some (KernelError.timeoutError op secs), elapsed⟩)) := by
  intro α ε c secs elapsed op raise_on_timeout
  cases raise_on_timeout <;> exact ⟨rfl, rfl⟩

/-- Claim C4: when the enclosing context is cancelled externally,
`run_with_timeout` re-raises the cancellation unchanged for both values of
`raise_on_timeout` and for any cleanup configuration — it neither converts
it into a timeout nor returns it inside a `TimeoutResult`, and no cleanup
runs. -/
theorem run_with_timeout_external_cancellation_propagates :
    ∀ (α ε : Type) (secs elapsed : ℚ) (op : String)
      (cleanup_callback : Option (CleanupOutcome ε)) (raise_on_timeout : Bool),
      (run_with_timeout (AwaitOutcome.cancelled : AwaitOutcome α ε) secs op cleanup_callback
          raise_on_timeout elapsed).2 = Except.error KernelError.cancelledError
      ∧ (run_with_timeout (AwaitOutcome.cancelled : AwaitOutcome α ε) secs op cleanup_callback
          raise_on_timeout elapsed).1 = [RwtEvent.finalOutcomeProduced] := by
  intro α ε secs elapsed op cleanup_callback raise_on_timeout
  exact ⟨rfl, rfl⟩

/-- Clamping a success rate to [0, 1] preserves being above the 0.80
threshold. -/
theorem clamp01_gt_iff (rate : ℚ) : 8/10 < max 0 (min 1 rate) ↔ 8/10 < rate := by
  rw [lt_max_iff, lt_min_iff]
  constructor
  · rintro (h | ⟨h1, h2⟩)
    · norm_num at h
    · exact h2
  · intro h
    exact Or.inr ⟨by norm_num, h⟩

/-- Clamping a success rate to [0, 1] preserves being below the 0.50
threshold. -/
theorem clamp01_lt_iff (rate : ℚ) : max 0 (min 1 rate) < 1/2 ↔ rate < 1/2 := by
  rw [max_lt_iff, min_lt_iff]
  constructor
  · rintro ⟨h0, h1 | h2⟩
    · norm_num at h1
    · exact h2
  · intro h
    exact ⟨by norm_num, Or.inr h⟩

/-- An inner lower clamp at 1 is absorbed by the outer [1, 5] clamp. -/
theorem clamp_inner_max_absorbed (z : ℤ) : max 1 (min 5 (max 1 z)) = max 1 (min 5 z) := by
  rcases le_total z 1 with h | h
  · rw [max_eq_left h, min_eq_right (by omega : z ≤ (5:ℤ)),
      min_eq_right (by norm_num : (1:ℤ) ≤ 5), max_eq_left (le_refl 1), max_eq_left h]
  · rw [max_eq_right h]

/-- Claim C6: the higher-level tracker's `recommend_parallelism` is always
clamped to [1, 5] (for every input, including out-of-range success rates),
and its value is the [1, 5]-clamp of: current_load + 1 exactly when the
success rate exceeds 0.80 and the load is below 3, current_load − 1 when
the success rate is below 0.50, and current_load otherwise. -/
theorem recommend_parallelism_policy :
    ∀ (current_load : ℤ) (success_rate : ℚ),
      1 ≤ recommend_parallelism current_load success_rate
      ∧ recommend_parallelism current_load success_rate ≤ 5
      ∧ recommend_parallelism current_load success_rate
        = max 1 (min 5 (if 8/10 < success_rate ∧ current_load < 3 then current_load + 1
                        else if success_rate < 1/2 then current_load - 1
                        else current_load)) := by
  intro load rate
  simp only [recommend_parallelism]
  refine ⟨le_max_left _ _, max_le (by norm_num) (min_le_left _ _), ?_⟩
  by_cases h1 : 8/10 < rate ∧ load < 3
  · rw [if_pos (⟨(clamp01_gt_iff rate).mpr h1.1, h1.2⟩ :
      8/10 < max 0 (min 1 rate) ∧ load < 3), if_pos h1]
  · rw [if_neg (fun hcon => h1 ⟨(clamp01_gt_iff rate).mp hcon.1, hcon.2⟩), if_neg h1]
    by_cases h2 : rate < 1/2
    · rw [if_pos ((clamp01_lt_iff rate).mpr h2), if_pos h2, clamp_inner_max_absorbed]
    · rw [if_neg (fun hcon => h2 ((clamp01_lt_iff rate).mp hcon)), if_neg h2]

/-- Counterexample to claim C7 as universally stated: with window size 0
the code's slice `executions[-0:]` is the whole list, so the result is the
success fraction of all records instead of the fraction among the last 0
records — the function does not consider only the last `window` entries. -/
theorem calculate_success_rate_window_zero_counterexample :
    calculate_success_rate [some true] 0 = 1
    ∧ success_rate_spec [some true] 0 = 0
    ∧ calculate_success_rate [some true] 0 ≠ success_rate_spec [some true] 0 := by
  have h1 : calculate_success_rate [some true] 0 = 1 := by
    norm_num [calculate_success_rate, successCount]
  have h2 : success_rate_spec [some true] 0 = 0 := by
    norm_num [success_rate_spec, lastWindow, successCount]
  refine ⟨h1, h2, ?_⟩
  rw [h1, h2]
  norm_num

/-- Claim C7 (amended to positive window sizes, as forced by the
counterexample at window 0): for every record list and every window size of
at least 1, `calculate_success_rate` equals the fraction of records with
success flag true among the last `window` records (missing flags counting
as failures), lies in [0, 1], and returns 0 for empty input. -/
theorem calculate_success_rate_positive_window :
    ∀ (executions : List (Option Bool)) (window : ℕ), 1 ≤ window →
      calculate_success_rate executions window = success_rate_spec executions window
      ∧ 0 ≤ calculate_success_rate executions window
      ∧ calculate_success_rate executions window ≤ 1
      ∧ calculate_success_rate [] window = 0 := by
  intro e w hw
  have hw0 : w ≠ 0 := by omega
  have hrec : e ≠ [] → e.drop (e.length - w) ≠ [] := by
    intro he hdrop
    have hlen := congrArg List.length hdrop
    rw [List.length_drop] at hlen
    simp only [List.length_nil] at hlen
    have hl : e.length ≠ 0 := fun h0 => he (List.length_eq_zero.mp h0)
    omega
  refine ⟨?_, ?_, ?_, by simp [calculate_success_rate]⟩
  · by_cases he : e = []
    · simp [calculate_success_rate, success_rate_spec, he]
    · simp [calculate_success_rate, success_rate_spec, lastWindow, he, hw0, hrec he]
  · simp only [calculate_success_rate]
    split_ifs
    · norm_num
    · norm_num
    · exact div_nonneg (Nat.cast_nonneg _) (Nat.cast_nonneg _)
  · simp only [calculate_success_rate]
    rw [if_neg hw0]
    split_ifs with hemp hrec2
    · norm_num
    · norm_num
    · have hpos : (0:ℚ) < ((e.drop (e.length - w)).length : ℚ) := by
        exact_mod_cast List.length_pos.mpr (hrec hemp)
      rw [div_le_one hpos]
      exact_mod_cast List.countP_le_length _

/-- Witness for C7: the amended theorem applied at a concrete two-record
list and window 2. -/
theorem calculate_success_rate_positive_window_witness :
    calculate_success_rate [some true, none] 2 = success_rate_spec [some true, none] 2
    ∧ 0 ≤ calculate_success_rate [some true, none] 2
    ∧ calculate_success_rate [some true, none] 2 ≤ 1
    ∧ calculate_success_rate [] 2 = 0 :=
  calculate_success_rate_positive_window [some true, none] 2 (by decide)

/-- Inserting into a list commutes with filtering on an exact key value:
the inserted element lands in front of the equal-key block. -/
theorem filter_orderedInsert_key (x : Issue) (k : ℤ) :
    ∀ (l : List Issue),
      (List.orderedInsert (fun a b => priorityKey a ≤ priorityKey b) x l).filter
          (fun i => priorityKey i = k)
        = if priorityKey x = k then x :: l.filter (fun i => priorityKey i = k)
          else l.filter (fun i => priorityKey i = k) := by
  intro l
  induction l with
  | nil =>
    by_cases hx : priorityKey x = k <;>
      simp [List.orderedInsert, List.filter, hx]
  | cons y ys ih =>
    by_cases hxy : priorityKey x ≤ priorityKey y
    · rw [List.orderedInsert, if_pos hxy]
      by_cases hx : priorityKey x = k <;> by_cases hy : priorityKey y = k <;>
        simp [List.filter_cons, hx, hy]
    · rw [List.orderedInsert, if_neg hxy]
      by_cases hx : priorityKey x = k <;> by_cases hy : priorityKey y = k
      · exact absurd (le_of_eq (hx.trans hy.symm)) hxy
      · simp [List.filter_cons, hx, hy, ih]
      · simp [List.filter_cons, hx, hy, ih]
      · simp [List.filter_cons, hx, hy, ih]

/-- Stability of `sort_by_priority`: filtering the output on any exact key
value gives the same subsequence, in the same order, as filtering the
input. -/
theorem sort_by_priority_filter_key (k : ℤ) :
    ∀ (issues : List Issue),
      (sort_by_priority issues).filter (fun i => priorityKey i = k)
        = issues.filter (fun i => priorityKey i = k) := by
  intro l
  induction l with
  | nil => rfl
  | cons x xs ih =>
    show (List.orderedInsert _ x (sort_by_priority xs)).filter _ = _
    rw [filter_orderedInsert_key]
    by_cases hx : priorityKey x = k <;> simp [List.filter_cons, hx, ih]

/-- Claim C8 (amended: restricted to lists whose present priorities are all
below 5, the documented P0–P4 range, as forced by the counterexample with
an explicit priority of 7): `sort_by_priority` returns a permutation of its
input (the input itself is untouched — the embedding is pure), sorted
ascending by the priority key, stable (equal-key entries keep their input
order, expressed by filter invariance on every key), and every entry
missing a priority is placed after all entries that have one. -/
theorem sort_by_priority_stable_sorted :
    ∀ (issues : List Issue),
      (∀ i ∈ issues, i.priority = none ∨ priorityKey i < 5) →
      (sort_by_priority issues).Perm issues
      ∧ (sort_by_priority issues).Pairwise (fun a b => priorityKey a ≤ priorityKey b)
      ∧ (∀ k : ℤ, (sort_by_priority issues).filter (fun i => priorityKey i = k)
          = issues.filter (fun i => priorityKey i = k))
      ∧ (sort_by_priority issues).Pairwise
          (fun a b => a.priority = none → b.priority = none) := by
  intro l h
  have hperm : (sort_by_priority l).Perm l := List.perm_insertionSort _ l
  have hsorted : (sort_by_priority l).Pairwise (fun a b => priorityKey a ≤ priorityKey b) :=
    List.sorted_insertionSort _ l
  refine ⟨hperm, hsorted, fun k => sort_by_priority_filter_key k l, ?_⟩
  refine hsorted.imp_of_mem ?_
  intro a b ha hb hab hnone
  rcases h b (hperm.subset hb) with hb0 | hb5
  · exact hb0
  · exfalso
    have ha5 : priorityKey a = 5 := by simp [priorityKey, hnone]
    rw [ha5] at hab
    omega

/-- Counterexample to claim C8 as universally stated: an entry with the
explicit priority 7 sorts after a priority-less entry (key 5), so the
priority-less entry is not placed after all entries that have a
priority. -/
theorem sort_by_priority_counterexample :
    sort_by_priority [⟨none, 0⟩, ⟨some 7, 1⟩] = [⟨none, 0⟩, ⟨some 7, 1⟩]
    ∧ ¬ (sort_by_priority [⟨none, 0⟩, ⟨some 7, 1⟩]).Pairwise
        (fun a b => a.priority = none → b.priority = none) :=
  ⟨by decide, by decide⟩

/-- Witness for C8: the amended theorem applied at a concrete list whose
present priorities are in the P0–P4 range. -/
theorem sort_by_priority_stable_sorted_witness :
    (sort_by_priority [⟨some 2, 0⟩, ⟨none, 1⟩, ⟨some 0, 2⟩]).Perm
        [⟨some 2, 0⟩, ⟨none, 1⟩, ⟨some 0, 2⟩]
    ∧ (sort_by_priority [⟨some 2, 0⟩, ⟨none, 1⟩, ⟨some 0, 2⟩]).Pairwise
        (fun a b => priorityKey a ≤ priorityKey b)
    ∧ (∀ k : ℤ, (sort_by_priority [⟨some 2, 0⟩, ⟨none, 1⟩, ⟨some 0, 2⟩]).filter
          (fun i => priorityKey i = k)
        = [(⟨some 2, 0⟩ : Issue), ⟨none, 1⟩, ⟨some 0, 2⟩].filter (fun i => priorityKey i = k))
    ∧ (sort_by_priority [⟨some 2, 0⟩, ⟨none, 1⟩, ⟨some 0, 2⟩]).Pairwise
        (fun a b => a.priority = none → b.priority = none) :=
  sort_by_priority_stable_sorted [⟨some 2, 0⟩, ⟨none, 1⟩, ⟨some 0, 2⟩] (by decide)

/-- Claim C9: saving any list of `MetricsData` records and reloading the
written document yields the same ordered list, field for field. -/
theorem metrics_save_load_round_trip :
    ∀ (metrics_list : List MetricsData),
      load_metrics (some (save_metrics metrics_list)) = some metrics_list := by
  intro l
  simp only [load_metrics, save_metrics, Option.some.injEq]
  induction l with
  | nil => rfl
  | cons m tl ih =>
    simp only [List.map_cons, List.filterMap_cons]
    rw [show decodeMetricsEntry (JEntry.dict (asdictMetrics m)) = some m from rfl]
    simpa using ih

/-- Claim C10: `build_security_settings` depends only on the tool list and
the MCP flag — two calls differing only in `project_dir` return identical
settings — because every file-scoped tool is granted the fixed relative
glob `tool(./**)` (never incorporating the project directory), Bash is
granted `Bash(*)`, and unrecognized tool names pass through unchanged. -/
theorem build_security_settings_project_dir_independent :
    ∀ (allowed_tools : List String) (dir1 dir2 : String) (enable_mcp : Bool),
      build_security_settings allowed_tools dir1 enable_mcp
        = build_security_settings allowed_tools dir2 enable_mcp
      ∧ (build_security_settings allowed_tools dir1 enable_mcp).allow
          = allowed_tools.map grant_for_tool
            ++ (if enable_mcp then PUPPETEER_TOOLS else [])
      ∧ (∀ t ∈ FILE_SCOPED_TOOLS, grant_for_tool t = t ++ "(./**)")
      ∧ grant_for_tool "Bash" = "Bash(*)"
      ∧ (∀ t, t ∉ FILE_SCOPED_TOOLS → t ≠ "Bash" → grant_for_tool t = t) := by
  intro allowed_tools dir1 dir2 enable_mcp
  refine ⟨rfl, rfl, ?_, by decide, ?_⟩
  · intro t ht
    simp [grant_for_tool, ht]
  · intro t h1 h2
    simp [grant_for_tool, h1, h2]

/-- Witness for C10: the per-tool grant clauses of the theorem applied to
concrete tool names. -/
theorem build_security_settings_project_dir_independent_witness :
    grant_for_tool "Read" = "Read(./**)" ∧ grant_for_tool "WebSearch" = "WebSearch" :=
  ⟨(build_security_settings_project_dir_independent [] "/a" "/b" true).2.2.1 "Read" (by decide),
   (build_security_settings_project_dir_independent [] "/a" "/b" true).2.2.2.2 "WebSearch"
     (by decide) (by decide)⟩
